import Mathlib

/-!
# Verification of the Outscale driver's request-signing subsystem

Shallow embedding of `libcloud/compute/drivers/outscale.py` and of the
SigV4-style request signer it delegates to (`OSCRequestSignerAlgorithmV4`,
which lives in a shared module outside the inspected sources and is
therefore modelled from the specification's description).

Bytes are `Nat` values below 256; 32-bit machine words are `Nat` reduced
modulo `2^32` at every operation that can overflow.
-/

set_option maxRecDepth 100000

namespace Outscale

/-! ## Byte-level primitives: SHA-256, HMAC-SHA256, hex, UTF-8 -/

/-- Reduce a `Nat` to a 32-bit machine word. -/
def w32 (x : Nat) : Nat := x % 2 ^ 32

/-- Right rotation of a 32-bit word by `n` bits. -/
def rotr (n x : Nat) : Nat := w32 ((x >>> n) ||| (x <<< (32 - n)))

/-- SHA-256 `Ch` function. -/
def ch (x y z : Nat) : Nat := (x &&& y) ^^^ ((x ^^^ 0xffffffff) &&& z)

/-- SHA-256 `Maj` function. -/
def maj (x y z : Nat) : Nat := (x &&& y) ^^^ (x &&& z) ^^^ (y &&& z)

/-- SHA-256 Σ₀. -/
def bigSigma0 (x : Nat) : Nat := rotr 2 x ^^^ rotr 13 x ^^^ rotr 22 x

/-- SHA-256 Σ₁. -/
def bigSigma1 (x : Nat) : Nat := rotr 6 x ^^^ rotr 11 x ^^^ rotr 25 x

/-- SHA-256 σ₀. -/
def smallSigma0 (x : Nat) : Nat := rotr 7 x ^^^ rotr 18 x ^^^ (x >>> 3)

/-- SHA-256 σ₁. -/
def smallSigma1 (x : Nat) : Nat := rotr 17 x ^^^ rotr 19 x ^^^ (x >>> 10)

/-- The 64 SHA-256 round constants of FIPS 180-4 (fractional parts of the
cube roots of the first 64 primes), written in decimal. -/
def sha256K : List Nat :=
  [1116352408, 1899447441, 3049323471, 3921009573, 961987163, 1508970993,
   2453635748, 2870763221, 3624381080, 310598401, 607225278, 1426881987,
   1925078388, 2162078206, 2614888103, 3248222580, 3835390401, 4022224774,
   264347078, 604807628, 770255983, 1249150122, 1555081692, 1996064986,
   2554220882, 2821834349, 2952996808, 3210313671, 3336571891, 3584528711,
   113926993, 338241895, 666307205, 773529912, 1294757372, 1396182291,
   1695183700, 1986661051, 2177026350, 2456956037, 2730485921, 2820302411,
   3259730800, 3345764771, 3516065817, 3600352804, 4094571909, 275423344,
   430227734, 506948616, 659060556, 883997877, 958139571, 1322822218,
   1537002063, 1747873779, 1955562222, 2024104815, 2227730452, 2361852424,
   2428436474, 2756734187, 3204031479, 3329325298]

/-- The eight 32-bit words of a SHA-256 chaining state. -/
structure Hash8 where
  a : Nat
  b : Nat
  c : Nat
  d : Nat
  e : Nat
  f : Nat
  g : Nat
  h : Nat
deriving Repr, DecidableEq

/-- SHA-256 initial hash value of FIPS 180-4, written in decimal. -/
def sha256H0 : Hash8 :=
  ⟨1779033703, 3144134277, 1013904242, 2773480762,
   1359893119, 2600822924, 528734635, 1541459225⟩

/-- Big-endian encoding of `n` in exactly `k` bytes. -/
def natToBytesBE : Nat → Nat → List Nat
  | 0, _ => []
  | k + 1, n => natToBytesBE k (n >>> 8) ++ [n % 256]

/-- SHA-256 padding: append `0x80`, zero bytes to 56 mod 64, then the
bit length in 8 big-endian bytes. -/
def sha256Pad (msg : List Nat) : List Nat :=
  let z := (119 - msg.length % 64) % 64
  msg ++ [0x80] ++ List.replicate z 0 ++ natToBytesBE 8 (8 * msg.length)

/-- Group bytes into big-endian 32-bit words (length a multiple of 4). -/
def bytesToWords : List Nat → List Nat
  | a :: b :: c :: d :: rest =>
      ((a <<< 24) ||| (b <<< 16) ||| (c <<< 8) ||| d) :: bytesToWords rest
  | _ => []

/-- Split a word list into 16-word blocks (the padded input is always an
exact multiple of 16 words). -/
def chunk16 : List Nat → List (List Nat)
  | w0 :: w1 :: w2 :: w3 :: w4 :: w5 :: w6 :: w7 ::
    w8 :: w9 :: w10 :: w11 :: w12 :: w13 :: w14 :: w15 :: rest =>
      [w0, w1, w2, w3, w4, w5, w6, w7,
       w8, w9, w10, w11, w12, w13, w14, w15] :: chunk16 rest
  | _ => []

/-- Extend a 16-word block to the 64-word message schedule. -/
def buildSchedule (base : List Nat) : List Nat :=
  (List.range 48).foldl
    (fun ws _ =>
      let n := ws.length
      ws ++ [w32 (smallSigma1 (ws.getD (n - 2) 0) + ws.getD (n - 7) 0 +
                  smallSigma0 (ws.getD (n - 15) 0) + ws.getD (n - 16) 0)])
    base

/-- One SHA-256 compression round. -/
def compressRound (st : Hash8) (k w : Nat) : Hash8 :=
  let t1 := w32 (st.h + bigSigma1 st.e + ch st.e st.f st.g + k + w)
  let t2 := w32 (bigSigma0 st.a + maj st.a st.b st.c)
  ⟨w32 (t1 + t2), st.a, st.b, st.c, w32 (st.d + t1), st.e, st.f, st.g⟩

/-- Compress one 16-word block into the chaining state. -/
def compressChunk (h0 : Hash8) (words : List Nat) : Hash8 :=
  let ws := buildSchedule words
  let fin := (sha256K.zip ws).foldl (fun st p => compressRound st p.1 p.2) h0
  ⟨w32 (h0.a + fin.a), w32 (h0.b + fin.b), w32 (h0.c + fin.c),
   w32 (h0.d + fin.d), w32 (h0.e + fin.e), w32 (h0.f + fin.f),
   w32 (h0.g + fin.g), w32 (h0.h + fin.h)⟩

/-- SHA-256 digest (32 bytes) of a byte string. -/
def sha256 (msg : List Nat) : List Nat :=
  let final := (chunk16 (bytesToWords (sha256Pad msg))).foldl compressChunk sha256H0
  ([final.a, final.b, final.c, final.d,
    final.e, final.f, final.g, final.h].map (natToBytesBE 4)).flatten

/-- HMAC-SHA256 with block size 64. -/
def hmacSha256 (key msg : List Nat) : List Nat :=
  let k0 := if key.length > 64 then sha256 key else key
  let k := k0 ++ List.replicate (64 - k0.length) 0
  sha256 ((k.map (fun b => b ^^^ 0x5c)) ++
          sha256 ((k.map (fun b => b ^^^ 0x36)) ++ msg))

/-- Lower-case hex digit for a value below 16. -/
def hexDigit (n : Nat) : Char :=
  if n < 10 then Char.ofNat (48 + n) else Char.ofNat (87 + n)

/-- Lower-case two-digit hex of one byte. -/
def byteToHex (b : Nat) : String :=
  String.mk [hexDigit (b / 16), hexDigit (b % 16)]

/-- Lower-case hex encoding of a byte string. -/
def hexLower (bs : List Nat) : String :=
  String.join (bs.map byteToHex)

/-- UTF-8 encoding of one character. -/
def utf8Char (c : Char) : List Nat :=
  let n := c.toNat
  if n < 0x80 then [n]
  else if n < 0x800 then
    [0xc0 ||| (n >>> 6), 0x80 ||| (n &&& 0x3f)]
  else if n < 0x10000 then
    [0xe0 ||| (n >>> 12), 0x80 ||| ((n >>> 6) &&& 0x3f), 0x80 ||| (n &&& 0x3f)]
  else
    [0xf0 ||| (n >>> 18), 0x80 ||| ((n >>> 12) &&& 0x3f),
     0x80 ||| ((n >>> 6) &&& 0x3f), 0x80 ||| (n &&& 0x3f)]

/-- UTF-8 encoding of a string, as Python's `str.encode("utf-8")`. -/
def utf8 (s : String) : List Nat :=
  (s.data.map utf8Char).flatten

/-! ## The request signer

`OutscaleNodeDriver` delegates signing to `OSCRequestSignerAlgorithmV4`
(`libcloud.common.osc`), a module outside the inspected sources; the
definitions in this section are modelled from the specification's
description of that signer (spec §4). -/

/-- Modelled from the spec: the fixed literal identifying the signing
scheme version, written `<ALGO_PREFIX>` in the spec. Its concrete value is
pinned outside the inspected sources (spec §9 open question); no theorem
below depends on the particular string chosen here. -/
def algoId : String := "OSC4"

/-- Modelled from the spec: the name of the date header carrying the full
timestamp (`X-<Vendor>-Date` or equivalent, spec §4.3 step 2); the concrete
name is pinned outside the inspected sources and no theorem depends on it. -/
def dateHeaderName : String := "x-osc-date"

/-- Modelled from the spec: long-lived secret material (spec §3). -/
structure Credential where
  access_key_id : String
  secret_key : String
deriving Repr, DecidableEq

/-- Modelled from the spec: the signing instant, captured once at the top
of `sign`, carried as its two formatted forms (full `YYYYMMDD'T'HHMMSS'Z'`
and date-only `YYYYMMDD`, both derived from the same instant, spec §3). -/
structure Timestamp where
  full : String
  date : String
deriving Repr, DecidableEq

/-- Modelled from the spec: the signer's error taxonomy (spec §7). -/
inductive SignError where
  | MissingCredential
  | MalformedInput
deriving Repr, DecidableEq

/-! ### CanonicalRequestBuilder (spec §4.1) -/

/-- Characters never percent-encoded. -/
def isUnreservedChar (c : Char) : Bool :=
  c.isAlpha || c.isDigit || c = '-' || c = '.' || c = '_' || c = '~'

/-- Hex-digit test, for recognising already-encoded `%XX` sequences. -/
def isHexDigitChar (c : Char) : Bool :=
  c.isDigit || ('a' ≤ c && c ≤ 'f') || ('A' ≤ c && c ≤ 'F')

/-- Upper-case hex digit for a value below 16. -/
def hexDigitUpper (n : Nat) : Char :=
  if n < 10 then Char.ofNat (48 + n) else Char.ofNat (55 + n)

/-- Percent-encode one byte as `%XX`. -/
def percentEncodeByte (b : Nat) : List Char :=
  ['%', hexDigitUpper (b / 16), hexDigitUpper (b % 16)]

/-- Modelled from the spec: percent-encode a path/query component using
the scheme's reserved-character rules, leaving already-encoded `%XX`
sequences untouched (spec §4.1). -/
def encodeSegmentChars : List Char → List Char
  | [] => []
  | '%' :: h1 :: h2 :: rest =>
      if isHexDigitChar h1 && isHexDigitChar h2 then
        '%' :: h1 :: h2 :: encodeSegmentChars rest
      else
        percentEncodeByte 0x25 ++ encodeSegmentChars (h1 :: h2 :: rest)
  | c :: rest =>
      if isUnreservedChar c then c :: encodeSegmentChars rest
      else ((utf8Char c).map percentEncodeByte).flatten ++ encodeSegmentChars rest

/-- Percent-encoding lifted to strings. -/
def encodeSegment (s : String) : String :=
  String.mk (encodeSegmentChars s.data)

/-- Modelled from the spec: canonical URI — percent-encode every path
segment; an empty path canonicalizes to `/` (spec §4.1). -/
def canonicalUri (path : String) : String :=
  if path = "" then "/"
  else String.intercalate "/" ((path.split (· = '/')).map encodeSegment)

/-- Split a char list at the first `=` (Python `split("=", 1)`.) -/
def breakOnEq : List Char → List Char × List Char
  | [] => ([], [])
  | '=' :: rest => ([], rest)
  | c :: rest => let p := breakOnEq rest; (c :: p.1, p.2)

/-- Lexicographic comparison of name/value pairs: by first component,
ties broken by the second. -/
def pairLe (p q : String × String) : Bool :=
  if p.1 = q.1 then decide (p.2 ≤ q.2) else decide (p.1 < q.1)

/-- Modelled from the spec: canonical query string — split on `&`, split
each pair on the first `=`, percent-encode key and value independently,
sort lexicographically by encoded key (ties by encoded value), re-join
with `&`; the absent query canonicalizes to the empty string (spec §4.1). -/
def canonicalQuery (q : String) : String :=
  if q = "" then ""
  else
    let pairs := (q.split (· = '&')).map fun kv =>
      let p := breakOnEq kv.data
      (encodeSegment (String.mk p.1), encodeSegment (String.mk p.2))
    String.intercalate "&" ((pairs.mergeSort pairLe).map fun p => p.1 ++ "=" ++ p.2)

/-- Drop leading and trailing whitespace from a char list. -/
def trimChars (l : List Char) : List Char :=
  ((l.dropWhile Char.isWhitespace).reverse.dropWhile Char.isWhitespace).reverse

/-- Collapse internal whitespace runs to a single space; the input is
assumed already trimmed (flag records whether a run is pending). -/
def collapseWsAux : Bool → List Char → List Char
  | _, [] => []
  | pend, c :: rest =>
      if c.isWhitespace then collapseWsAux true rest
      else if pend then ' ' :: c :: collapseWsAux false rest
      else c :: collapseWsAux false rest

/-- Modelled from the spec: header-value canonicalization — trim and
collapse internal whitespace (spec §4.1). -/
def canonValue (v : String) : String :=
  String.mk (collapseWsAux false (trimChars v.data))

/-- Lower-case every header name and canonicalize every value. -/
def normalizeHeaders (hs : List (String × String)) : List (String × String) :=
  hs.map fun p => (p.1.toLower, canonValue p.2)

/-- Normalized headers in sorted order. -/
def sortedHeaders (hs : List (String × String)) : List (String × String) :=
  (normalizeHeaders hs).mergeSort pairLe

/-- Modelled from the spec: the canonical header block — `name:value\n`
per header, in sorted order, trailing newline after the block (spec §4.1). -/
def canonicalHeadersBlock (hs : List (String × String)) : String :=
  String.join ((sortedHeaders hs).map fun p => p.1 ++ ":" ++ p.2 ++ "\n")

/-- Modelled from the spec: the sorted, lower-cased, semicolon-joined list
of signed header names (spec §4.1). -/
def signedHeadersList (hs : List (String × String)) : String :=
  String.intercalate ";" ((sortedHeaders hs).map fun p => p.1)

/-- Modelled from the spec: the payload hash — lower-case hex of SHA-256
over the raw payload bytes (spec §4.1). -/
def payloadHash (payload : String) : String :=
  hexLower (sha256 (utf8 payload))

/-- Modelled from the spec: the canonical request —
`METHOD\n CANONICAL_URI\n CANONICAL_QUERY\n CANONICAL_HEADERS\n
SIGNED_HEADERS\n PAYLOAD_HASH`, newline-joined, nothing after the hash
(spec §4.1). -/
def buildCanonicalRequest (method uri query : String)
    (headers : List (String × String)) (payload : String) : String :=
  method ++ "\n" ++ canonicalUri uri ++ "\n" ++ canonicalQuery query ++ "\n" ++
  canonicalHeadersBlock headers ++ "\n" ++ signedHeadersList headers ++ "\n" ++
  payloadHash payload

/-! ### SigningKeyDeriver (spec §4.2) -/

/-- One keyed-hash stage: HMAC-SHA256 of a UTF-8 message under a byte key. -/
def signStep (key : List Nat) (msg : String) : List Nat :=
  hmacSha256 key (utf8 msg)

/-- Modelled from the spec: the 4-stage HMAC-SHA256 chain deriving the
scoped signing key from the secret (spec §4.2). -/
def getSignatureKey (secret_key date_stamp region service : String) : List Nat :=
  let k_date := signStep (utf8 (algoId ++ secret_key)) date_stamp
  let k_region := signStep k_date region
  let k_service := signStep k_region service
  signStep k_service (algoId ++ "_request")

/-! ### RequestSigner (spec §4.3) -/

/-- Default API suffix from `OutscaleNodeDriver.__init__` (`base_uri`). -/
def base_uri_default : String := "outscale.com"

/-- Default API version from `OutscaleNodeDriver.__init__` (`version`). -/
def version_default : String := "latest"

/-- Modelled from the spec: the credential scope binding a signature to
date, region and service (spec §4.3 step 4). -/
def credentialScope (date_stamp region service : String) : String :=
  date_stamp ++ "/" ++ region ++ "/" ++ service ++ "/" ++ algoId ++ "_request"

/-- Modelled from the spec: the minimal header set built before signing —
host, the date header, and the JSON content type (spec §4.3 step 2). -/
def baseHeaders (host full_ts : String) : List (String × String) :=
  [("host", host), (dateHeaderName, full_ts),
   ("content-type", "application/json; charset=utf-8")]

/-- Modelled from the spec: the string to sign (spec §4.3 step 4). -/
def stringToSign (full_ts scope canonical_request : String) : String :=
  algoId ++ "-HMAC-SHA256\n" ++ full_ts ++ "\n" ++ scope ++ "\n" ++
  hexLower (sha256 (utf8 canonical_request))

/-- Modelled from the spec: `RequestSigner.sign` (spec §4.3) — checks the
credential, builds the canonical request over the pre-signing headers,
derives the scoped key, and returns the header set plus `Authorization`.
Every input is an explicit argument; the host is derived from the region
and the driver's default API suffix. -/
def sign (action payload service region : String) (credential : Credential)
    (now : Timestamp) : Except SignError (List (String × String)) :=
  if credential.access_key_id = "" ∨ credential.secret_key = "" then
    .error .MissingCredential
  else
    let host := "api." ++ region ++ "." ++ base_uri_default
    let headers := baseHeaders host now.full
    let canonical_request := buildCanonicalRequest "POST"
      ("/api/" ++ version_default ++ "/" ++ action) "" headers payload
    let scope := credentialScope now.date region service
    let sts := stringToSign now.full scope canonical_request
    let signing_key := getSignatureKey credential.secret_key now.date region service
    let signature := hexLower (hmacSha256 signing_key (utf8 sts))
    .ok (headers ++
      [("Authorization",
        algoId ++ "-HMAC-SHA256 Credential=" ++ credential.access_key_id ++ "/" ++
        scope ++ ", SignedHeaders=" ++ signedHeadersList headers ++
        ", Signature=" ++ signature)])

/-! ## The driver (`libcloud/compute/drivers/outscale.py`) -/

/-- The driver's state after `OutscaleNodeDriver.__init__`: configuration
fields plus the two mutable fields the constructor copies onto the shared
connection object (`connection.region_name`, `connection.service_name`).
The signer object stores `access_key = self.key`, `access_secret =
self.secret` and `version = self.version` at construction; those stored
values coincide with the fields kept here. -/
structure OutscaleNodeDriver where
  key : String
  secret : String
  region : String
  service_name : String
  version : String
  base_uri : String
  connection_region_name : String
  connection_service_name : String
deriving Repr, DecidableEq

/-- `OutscaleNodeDriver.__init__(key, secret, region, service, version,
base_uri)`: stores the configuration and copies region/service onto the
connection object. -/
def OutscaleNodeDriver.init (key secret region service version base_uri : String) :
    OutscaleNodeDriver :=
  { key := key, secret := secret, region := region, service_name := service,
    version := version, base_uri := base_uri,
    connection_region_name := region, connection_service_name := service }

/-- `OutscaleNodeDriver._get_outscale_endpoint(region, version, action)`:
`"https://api.{}.{}/api/{}/{}".format(region, self.base_uri, version,
action)`. -/
def OutscaleNodeDriver.get_outscale_endpoint (s : OutscaleNodeDriver)
    (region version action : String) : String :=
  "https://api." ++ region ++ "." ++ s.base_uri ++ "/api/" ++ version ++
  "/" ++ action

/-- The URL `OutscaleNodeDriver._call_api` posts to:
`self._get_outscale_endpoint(self.region, self.version, action)`. -/
def OutscaleNodeDriver.call_api_endpoint (s : OutscaleNodeDriver)
    (action : String) : String :=
  s.get_outscale_endpoint s.region s.version action

/-- `OutscaleNodeDriver._ex_generate_headers(action, data)`:
`self.signer.get_request_headers(action=action, data=data,
service_name=self.service_name, region=self.region)`, where the signer was
constructed with `access_key=self.key`, `access_secret=self.secret`. The
signing instant is threaded explicitly (spec §3). -/
def OutscaleNodeDriver.ex_generate_headers (s : OutscaleNodeDriver)
    (action data : String) (now : Timestamp) :
    Except SignError (List (String × String)) :=
  sign action data s.service_name s.region ⟨s.key, s.secret⟩ now

/-- The part of an HTTP response the driver's CRUD methods inspect. -/
structure HttpResponse where
  status_code : Nat
  body : String
deriving Repr, DecidableEq

/-- Tail of `OutscaleNodeDriver.destroy_node`: `if
self._call_api(action, data).status_code == 200: return True; return
False`, as a function of the response. -/
def OutscaleNodeDriver.destroy_node_result (response : HttpResponse) : Bool :=
  if response.status_code = 200 then true else false

/-- Tail of `OutscaleNodeDriver.ex_delete_public_ip`: same
status-collapsing pattern as `destroy_node`. -/
def OutscaleNodeDriver.ex_delete_public_ip_result (response : HttpResponse) : Bool :=
  if response.status_code = 200 then true else false

/-! ## `_to_volumes` (driver JSON translation) -/

/-- Python values reachable by `_to_volumes`: strings, lists and dicts. -/
inductive PyVal where
  | str : String → PyVal
  | pyList : List PyVal → PyVal
  | pyDict : List (String × PyVal) → PyVal

/-- Python iteration (`for x in v`): a list yields its elements, a dict
its keys (as strings), a string its characters (as 1-character strings). -/
def pyIterate : PyVal → List PyVal
  | .str s => s.data.map fun c => .str (String.mk [c])
  | .pyList xs => xs
  | .pyDict kvs => kvs.map fun kv => .str kv.1

/-- Option-valued map: `none` as soon as one element maps to `none`. -/
def mapOpt (f : PyVal → Option PyVal) : List PyVal → Option (List PyVal)
  | [] => some []
  | x :: xs =>
      match f x with
      | none => none
      | some y => (mapOpt f xs).map fun ys => y :: ys

/-- `OutscaleNodeDriver._to_volumes(volumes)`: `[self._to_volumes(volume)
for volume in volumes]` — the comprehension recurses into `_to_volumes`
itself, not `_to_volume`. `fuel` bounds the recursion depth (Python's
recursion limit); `none` means the depth bound was exhausted, i.e. the
call never returns normally. -/
def to_volumes (fuel : Nat) (v : PyVal) : Option PyVal :=
  match fuel with
  | 0 => none
  | fuel + 1 => (mapOpt (fun x => to_volumes fuel x) (pyIterate v)).map PyVal.pyList
termination_by fuel

/-- `OutscaleNodeDriver.list_volumes`: applies `_to_volumes` to the
response's `"Volumes"` array. -/
def list_volumes (fuel : Nat) (volumes : List PyVal) : Option PyVal :=
  to_volumes fuel (.pyList volumes)

/-! ## Claims -/

/-- C1: for a fixed input tuple `(access_key_id, secret_key, region,
service, action, payload, now)`, two invocations of `sign` produce
byte-identical header mappings; likewise, for a fixed `(secret_key,
date_stamp, region, service)` tuple the derived signing key is always
identical. -/
theorem sign_deterministic
    (a1 p1 s1 r1 : String) (c1 : Credential) (n1 : Timestamp)
    (a2 p2 s2 r2 : String) (c2 : Credential) (n2 : Timestamp)
    (sk1 d1 rg1 sv1 sk2 d2 rg2 sv2 : String)
    (hsig : (a1, p1, s1, r1, c1, n1) = (a2, p2, s2, r2, c2, n2))
    (hkey : (sk1, d1, rg1, sv1) = (sk2, d2, rg2, sv2)) :
    sign a1 p1 s1 r1 c1 n1 = sign a2 p2 s2 r2 c2 n2 ∧
    getSignatureKey sk1 d1 rg1 sv1 = getSignatureKey sk2 d2 rg2 sv2 := by
  simp only [Prod.mk.injEq] at hsig hkey
  obtain ⟨ha, hp, hs, hr, hc, hn⟩ := hsig
  obtain ⟨hk, hd, hg, hv⟩ := hkey
  subst ha hp hs hr hc hn hk hd hg hv
  exact ⟨rfl, rfl⟩

/-- Witness for C1 at the spec's golden-vector fixture. -/
theorem sign_deterministic_witness :
    sign "ReadVms" "\x7b\"DryRun\":false\x7d" "api" "eu-west-2"
        ⟨"AKIDEXAMPLE", "secret123"⟩ ⟨"20230101T000000Z", "20230101"⟩ =
      sign "ReadVms" "\x7b\"DryRun\":false\x7d" "api" "eu-west-2"
        ⟨"AKIDEXAMPLE", "secret123"⟩ ⟨"20230101T000000Z", "20230101"⟩ ∧
    getSignatureKey "secret123" "20230101" "eu-west-2" "api" =
      getSignatureKey "secret123" "20230101" "eu-west-2" "api" :=
  sign_deterministic "ReadVms" "\x7b\"DryRun\":false\x7d" "api" "eu-west-2"
    ⟨"AKIDEXAMPLE", "secret123"⟩ ⟨"20230101T000000Z", "20230101"⟩
    "ReadVms" "\x7b\"DryRun\":false\x7d" "api" "eu-west-2"
    ⟨"AKIDEXAMPLE", "secret123"⟩ ⟨"20230101T000000Z", "20230101"⟩
    "secret123" "20230101" "eu-west-2" "api"
    "secret123" "20230101" "eu-west-2" "api" rfl rfl

/-- The 4-stage chain exactly as the specification words it (spec §4.2):
each stage is HMAC-SHA256 keyed by the previous stage's output, seeded by
`<ALGO_PREFIX> + secret_key`, and the output is `k_signing`. -/
def signingKeyChainSpec (secret_key date_stamp region service : String) : List Nat :=
  hmacSha256
    (hmacSha256
      (hmacSha256
        (hmacSha256 (utf8 (algoId ++ secret_key)) (utf8 date_stamp))
        (utf8 region))
      (utf8 service))
    (utf8 (algoId ++ "_request"))

/-- C2: for every secret_key, date_stamp, region and service, the derived
signing key equals the 4-stage HMAC-SHA256 chain `k_date`, `k_region`,
`k_service`, `k_signing` of the specification, with its output `k_signing`. -/
theorem getSignatureKey_eq_chain (secret_key date_stamp region service : String) :
    getSignatureKey secret_key date_stamp region service =
      signingKeyChainSpec secret_key date_stamp region service :=
  rfl

/-- C4: when the credential's access key or secret key is the empty
string, `sign` fails with `MissingCredential` and never returns a header
set. -/
theorem sign_missing_credential (action payload service region : String)
    (c : Credential) (now : Timestamp)
    (h : c.access_key_id = "" ∨ c.secret_key = "") :
    sign action payload service region c now = .error .MissingCredential := by
  rcases h with h | h <;> simp [sign, h]

/-- Witness for C4: an empty secret key is rejected. -/
theorem sign_missing_credential_witness :
    sign "ReadVms" "\x7b\"DryRun\":false\x7d" "api" "eu-west-2"
        ⟨"AKIDEXAMPLE", ""⟩ ⟨"20230101T000000Z", "20230101"⟩ =
      .error .MissingCredential :=
  sign_missing_credential "ReadVms" "\x7b\"DryRun\":false\x7d" "api" "eu-west-2"
    ⟨"AKIDEXAMPLE", ""⟩ ⟨"20230101T000000Z", "20230101"⟩ (Or.inr rfl)

/-- C5: the headers produced for a call depend only on the explicit
per-call arguments — two driver states agreeing on the credential,
region and service fields that are passed explicitly into signing, but
differing arbitrarily in the shared mutable connection fields
(`connection.region_name`, `connection.service_name`), produce identical
headers. -/
theorem headers_ignore_connection_state (s1 s2 : OutscaleNodeDriver)
    (hk : s1.key = s2.key) (hs : s1.secret = s2.secret)
    (hr : s1.region = s2.region) (hv : s1.service_name = s2.service_name)
    (action data : String) (now : Timestamp) :
    s1.ex_generate_headers action data now = s2.ex_generate_headers action data now := by
  simp only [OutscaleNodeDriver.ex_generate_headers, hk, hs, hr, hv]

/-- Witness for C5: two states that differ only in both connection
fields produce identical headers. -/
theorem headers_ignore_connection_state_witness :
    OutscaleNodeDriver.ex_generate_headers
        ⟨"ak", "sk", "eu-west-2", "api", "latest", "outscale.com", "eu-west-2", "api"⟩
        "ReadVms" "\x7b\x7d" ⟨"20230101T000000Z", "20230101"⟩ =
      OutscaleNodeDriver.ex_generate_headers
        ⟨"ak", "sk", "eu-west-2", "api", "latest", "outscale.com", "us-east-1", "fcu"⟩
        "ReadVms" "\x7b\x7d" ⟨"20230101T000000Z", "20230101"⟩ :=
  headers_ignore_connection_state
    ⟨"ak", "sk", "eu-west-2", "api", "latest", "outscale.com", "eu-west-2", "api"⟩
    ⟨"ak", "sk", "eu-west-2", "api", "latest", "outscale.com", "us-east-1", "fcu"⟩
    rfl rfl rfl rfl "ReadVms" "\x7b\x7d" ⟨"20230101T000000Z", "20230101"⟩

/-- C8: the endpoint URL the driver posts to is
`https://api.{region}.{base_uri}/api/{version}/{action}`, and `_call_api`
instantiates it at the driver's own region and version. -/
theorem endpoint_shape (s : OutscaleNodeDriver) (region version action : String) :
    s.get_outscale_endpoint region version action =
      "https://api." ++ region ++ "." ++ s.base_uri ++ "/api/" ++ version ++
        "/" ++ action ∧
    s.call_api_endpoint action =
      "https://api." ++ s.region ++ "." ++ s.base_uri ++ "/api/" ++ s.version ++
        "/" ++ action :=
  ⟨rfl, rfl⟩

/-- C9: the boolean CRUD methods `destroy_node` and `ex_delete_public_ip`
return `true` exactly when the response status is 200 and `false` for any
other status, and their result is unchanged by the response body. -/
theorem bool_crud_collapses_status (r1 r2 : HttpResponse)
    (h : r1.status_code = r2.status_code) :
    (OutscaleNodeDriver.destroy_node_result r1 = true ↔ r1.status_code = 200) ∧
    (OutscaleNodeDriver.ex_delete_public_ip_result r1 = true ↔
      r1.status_code = 200) ∧
    OutscaleNodeDriver.destroy_node_result r1 =
      OutscaleNodeDriver.destroy_node_result r2 ∧
    OutscaleNodeDriver.ex_delete_public_ip_result r1 =
      OutscaleNodeDriver.ex_delete_public_ip_result r2 := by
  refine ⟨?_, ?_, ?_, ?_⟩ <;>
    simp [OutscaleNodeDriver.destroy_node_result,
      OutscaleNodeDriver.ex_delete_public_ip_result, h]

/-- Witness for C9: a 404 with a diagnostic body collapses to the same
`false` as a 404 with an empty body. -/
theorem bool_crud_collapses_status_witness :
    (OutscaleNodeDriver.destroy_node_result ⟨404, "AccessDenied"⟩ = true ↔
      (404 : Nat) = 200) ∧
    (OutscaleNodeDriver.ex_delete_public_ip_result ⟨404, "AccessDenied"⟩ = true ↔
      (404 : Nat) = 200) ∧
    OutscaleNodeDriver.destroy_node_result ⟨404, "AccessDenied"⟩ =
      OutscaleNodeDriver.destroy_node_result ⟨404, ""⟩ ∧
    OutscaleNodeDriver.ex_delete_public_ip_result ⟨404, "AccessDenied"⟩ =
      OutscaleNodeDriver.ex_delete_public_ip_result ⟨404, ""⟩ :=
  bool_crud_collapses_status ⟨404, "AccessDenied"⟩ ⟨404, ""⟩ rfl

/-- C3: for every well-formed input, `string_to_sign` is
`"<ALGO_PREFIX>-HMAC-SHA256\n" + full_timestamp + "\n" + credential_scope
+ "\n" + hex(SHA256(canonical_request))` with `credential_scope =
date_stamp + "/" + region + "/" + service + "/<ALGO_PREFIX>_request"`, and
`sign` returns an `Authorization` header equal to
`"<ALGO_PREFIX>-HMAC-SHA256 Credential=" + access_key_id + "/" +
credential_scope + ", SignedHeaders=" + signed_headers + ", Signature=" +
hex(HMAC(SigningKey, string_to_sign))`. -/
theorem sign_authorization_format (action payload service region : String)
    (c : Credential) (now : Timestamp) (cr : String)
    (hak : c.access_key_id ≠ "") (hsk : c.secret_key ≠ "") :
    stringToSign now.full (credentialScope now.date region service) cr =
      algoId ++ "-HMAC-SHA256\n" ++ now.full ++ "\n" ++
      (now.date ++ "/" ++ region ++ "/" ++ service ++ "/" ++ algoId ++
        "_request") ++ "\n" ++ hexLower (sha256 (utf8 cr)) ∧
    sign action payload service region c now = .ok
      (baseHeaders ("api." ++ region ++ "." ++ base_uri_default) now.full ++
       [("Authorization",
         algoId ++ "-HMAC-SHA256 Credential=" ++ c.access_key_id ++ "/" ++
         credentialScope now.date region service ++ ", SignedHeaders=" ++
         signedHeadersList
           (baseHeaders ("api." ++ region ++ "." ++ base_uri_default) now.full) ++
         ", Signature=" ++
         hexLower (hmacSha256
           (getSignatureKey c.secret_key now.date region service)
           (utf8 (stringToSign now.full (credentialScope now.date region service)
             (buildCanonicalRequest "POST"
               ("/api/" ++ version_default ++ "/" ++ action) ""
               (baseHeaders ("api." ++ region ++ "." ++ base_uri_default) now.full)
               payload)))))]) := by
  refine ⟨?_, ?_⟩
  · simp only [stringToSign, credentialScope, String.append_assoc]
  · simp [sign, hak, hsk]

/-- Witness for C3 at the spec's golden-vector fixture. -/
theorem sign_authorization_format_witness :
    stringToSign "20230101T000000Z"
        (credentialScope "20230101" "eu-west-2" "api") "CR" =
      algoId ++ "-HMAC-SHA256\n" ++ "20230101T000000Z" ++ "\n" ++
      ("20230101" ++ "/" ++ "eu-west-2" ++ "/" ++ "api" ++ "/" ++ algoId ++
        "_request") ++ "\n" ++ hexLower (sha256 (utf8 "CR")) ∧
    sign "ReadVms" "\x7b\"DryRun\":false\x7d" "api" "eu-west-2"
        ⟨"AKIDEXAMPLE", "secret123"⟩ ⟨"20230101T000000Z", "20230101"⟩ = .ok
      (baseHeaders ("api." ++ "eu-west-2" ++ "." ++ base_uri_default)
        (Timestamp.full ⟨"20230101T000000Z", "20230101"⟩) ++
       [("Authorization",
         algoId ++ "-HMAC-SHA256 Credential=" ++ "AKIDEXAMPLE" ++ "/" ++
         credentialScope "20230101" "eu-west-2" "api" ++ ", SignedHeaders=" ++
         signedHeadersList
           (baseHeaders ("api." ++ "eu-west-2" ++ "." ++ base_uri_default)
             "20230101T000000Z") ++
         ", Signature=" ++
         hexLower (hmacSha256
           (getSignatureKey "secret123" "20230101" "eu-west-2" "api")
           (utf8 (stringToSign "20230101T000000Z"
             (credentialScope "20230101" "eu-west-2" "api")
             (buildCanonicalRequest "POST"
               ("/api/" ++ version_default ++ "/" ++ "ReadVms") ""
               (baseHeaders ("api." ++ "eu-west-2" ++ "." ++ base_uri_default)
                 "20230101T000000Z")
               "\x7b\"DryRun\":false\x7d")))))]) :=
  sign_authorization_format "ReadVms" "\x7b\"DryRun\":false\x7d" "api"
    "eu-west-2" ⟨"AKIDEXAMPLE", "secret123"⟩ ⟨"20230101T000000Z", "20230101"⟩
    "CR" (by decide) (by decide)

/-- C7: the payload hash is the lower-case hex of SHA-256 over the raw
payload bytes; the empty payload (whose UTF-8 encoding is the empty byte
string) hashes to the well-known empty-input SHA-256 digest, independent
of the credential. -/
theorem payload_hash_spec (c : Credential) (payload : String) :
    payloadHash payload = hexLower (sha256 (utf8 payload)) ∧
    utf8 "" = [] ∧
    payloadHash "" =
      "e3b0c44298fc1c149afbf4c8996fb92427ae41e4649b934ca495991b7852b855" :=
  ⟨rfl, rfl, by decide⟩

/-! ### Header-ordering invariance (C6) -/

theorem pairLe_iff (p q : String × String) :
    pairLe p q = true ↔ p.1 < q.1 ∨ (p.1 = q.1 ∧ p.2 ≤ q.2) := by
  unfold pairLe
  by_cases h : p.1 = q.1 <;> simp [h]

theorem pairLe_trans (a b c : String × String) :
    pairLe a b = true → pairLe b c = true → pairLe a c = true := by
  simp only [pairLe_iff]
  rintro (h1 | ⟨h1, h1v⟩) (h2 | ⟨h2, h2v⟩)
  · exact Or.inl (lt_trans h1 h2)
  · exact Or.inl (h2 ▸ h1)
  · exact Or.inl (h1 ▸ h2)
  · exact Or.inr ⟨h1.trans h2, le_trans h1v h2v⟩

theorem pairLe_total (p q : String × String) :
    (pairLe p q || pairLe q p) = true := by
  simp only [Bool.or_eq_true, pairLe_iff]
  rcases lt_trichotomy p.1 q.1 with h | h | h
  · exact Or.inl (Or.inl h)
  · rcases le_total p.2 q.2 with hv | hv
    · exact Or.inl (Or.inr ⟨h, hv⟩)
    · exact Or.inr (Or.inr ⟨h.symm, hv⟩)
  · exact Or.inr (Or.inl h)

theorem pairLe_antisymm (a b : String × String) :
    pairLe a b = true → pairLe b a = true → a = b := by
  simp only [pairLe_iff]
  rintro (h1 | ⟨h1, h1v⟩) (h2 | ⟨h2, h2v⟩)
  · exact absurd h2 (lt_asymm h1)
  · exact absurd (h2 ▸ h1) (lt_irrefl a.1)
  · exact absurd (h1 ▸ h2) (lt_irrefl a.1)
  · cases a; cases b
    simp only [Prod.mk.injEq]
    exact ⟨h1, le_antisymm h1v h2v⟩

instance : IsAntisymm (String × String) (fun p q => pairLe p q = true) :=
  ⟨pairLe_antisymm⟩

/-- `mergeSort` under the header order is a function of the multiset of
entries: permuting the input does not change the sorted output. -/
theorem mergeSort_pairLe_congr {l1 l2 : List (String × String)}
    (h : l1.Perm l2) : l1.mergeSort pairLe = l2.mergeSort pairLe :=
  List.eq_of_perm_of_sorted (r := fun p q => pairLe p q = true)
    ((List.mergeSort_perm l1 pairLe).trans
      (h.trans (List.mergeSort_perm l2 pairLe).symm))
    (List.sorted_mergeSort pairLe_trans pairLe_total l1)
    (List.sorted_mergeSort pairLe_trans pairLe_total l2)

/-- C6: permuting the insertion order of the headers does not change the
canonical header block (lower-cased names, lexicographically sorted,
`name:value\n` per header), the signed-header list, or the canonical
request built from them. -/
theorem canonical_headers_perm_invariant (method uri query payload : String)
    (hs1 hs2 : List (String × String)) (h : hs1.Perm hs2) :
    canonicalHeadersBlock hs1 = canonicalHeadersBlock hs2 ∧
    signedHeadersList hs1 = signedHeadersList hs2 ∧
    buildCanonicalRequest method uri query hs1 payload =
      buildCanonicalRequest method uri query hs2 payload := by
  have hsort : sortedHeaders hs1 = sortedHeaders hs2 := by
    unfold sortedHeaders normalizeHeaders
    exact mergeSort_pairLe_congr (h.map _)
  have h1 : canonicalHeadersBlock hs1 = canonicalHeadersBlock hs2 := by
    unfold canonicalHeadersBlock; rw [hsort]
  have h2 : signedHeadersList hs1 = signedHeadersList hs2 := by
    unfold signedHeadersList; rw [hsort]
  refine ⟨h1, h2, ?_⟩
  unfold buildCanonicalRequest
  rw [h1, h2]

/-- Witness for C6: swapping two concrete headers leaves the canonical
request unchanged. -/
theorem canonical_headers_perm_invariant_witness :
    canonicalHeadersBlock
        [("X-Osc-Date", "20230101T000000Z"), ("Host", "api.eu-west-2.outscale.com")] =
      canonicalHeadersBlock
        [("Host", "api.eu-west-2.outscale.com"), ("X-Osc-Date", "20230101T000000Z")] ∧
    signedHeadersList
        [("X-Osc-Date", "20230101T000000Z"), ("Host", "api.eu-west-2.outscale.com")] =
      signedHeadersList
        [("Host", "api.eu-west-2.outscale.com"), ("X-Osc-Date", "20230101T000000Z")] ∧
    buildCanonicalRequest "POST" "/api/latest/ReadVms" ""
        [("X-Osc-Date", "20230101T000000Z"), ("Host", "api.eu-west-2.outscale.com")]
        "" =
      buildCanonicalRequest "POST" "/api/latest/ReadVms" ""
        [("Host", "api.eu-west-2.outscale.com"), ("X-Osc-Date", "20230101T000000Z")]
        "" :=
  canonical_headers_perm_invariant "POST" "/api/latest/ReadVms" "" ""
    [("X-Osc-Date", "20230101T000000Z"), ("Host", "api.eu-west-2.outscale.com")]
    [("Host", "api.eu-west-2.outscale.com"), ("X-Osc-Date", "20230101T000000Z")]
    (List.Perm.swap ("Host", "api.eu-west-2.outscale.com")
      ("X-Osc-Date", "20230101T000000Z") [])

/-! ### `_to_volumes` divergence (C10) -/

/-- Iterating `_to_volumes` on a 1-character string loops on itself: a
1-character Python string iterates to itself, so every fuel bound is
exhausted. -/
theorem to_volumes_char_none (c : Char) :
    ∀ n, to_volumes n (.str (String.mk [c])) = none := by
  intro n
  induction n with
  | zero => simp [to_volumes]
  | succ k ih =>
    rw [to_volumes]
    simp [pyIterate, mapOpt, ih]

theorem to_volumes_chars_none (c : Char) (cs : List Char) (n : Nat) :
    to_volumes n (.str (String.mk (c :: cs))) = none := by
  cases n with
  | zero => simp [to_volumes]
  | succ k =>
    rw [to_volumes]
    simp [pyIterate, mapOpt, to_volumes_char_none c k]

theorem to_volumes_str_none (s : String) (hs : s ≠ "") (n : Nat) :
    to_volumes n (.str s) = none := by
  obtain ⟨l⟩ := s
  cases l with
  | nil => exact absurd rfl hs
  | cons c cs => exact to_volumes_chars_none c cs n

theorem to_volumes_dict_none (k : String) (hk : k ≠ "") (v : PyVal)
    (kvs : List (String × PyVal)) (n : Nat) :
    to_volumes n (.pyDict ((k, v) :: kvs)) = none := by
  cases n with
  | zero => simp [to_volumes]
  | succ m =>
    rw [to_volumes]
    simp [pyIterate, mapOpt, to_volumes_str_none k hk m]

/-- C10: `_to_volumes` maps the empty list to the empty list, but on any
non-empty list of volume dictionaries (a dict with at least one key, keys
being non-empty strings) it recurses into itself on each element instead
of `_to_volume`, exhausting every recursion-depth bound — so
`list_volumes` never returns a translated list for a non-empty `"Volumes"`
array. -/
theorem to_volumes_diverges_on_nonempty
    (k : String) (hk : k ≠ "") (v : PyVal) (kvs : List (String × PyVal))
    (rest : List PyVal) (fuel : Nat) :
    to_volumes (fuel + 1) (.pyList []) = some (.pyList []) ∧
    list_volumes (fuel + 1) [] = some (.pyList []) ∧
    to_volumes fuel (.pyList (.pyDict ((k, v) :: kvs) :: rest)) = none ∧
    list_volumes fuel (.pyDict ((k, v) :: kvs) :: rest) = none := by
  have hempty : to_volumes (fuel + 1) (.pyList []) = some (.pyList []) := by
    rw [to_volumes]; simp [pyIterate, mapOpt]
  have hdiv : to_volumes fuel (.pyList (.pyDict ((k, v) :: kvs) :: rest)) = none := by
    cases fuel with
    | zero => simp [to_volumes]
    | succ m =>
      rw [to_volumes]
      simp [pyIterate, mapOpt, to_volumes_dict_none k hk v kvs m]
  exact ⟨hempty, hempty, hdiv, hdiv⟩

/-- Witness for C10: a realistic one-volume response array is never
translated, at a concrete depth bound. -/
theorem to_volumes_diverges_on_nonempty_witness :
    to_volumes (5 + 1) (.pyList []) = some (.pyList []) ∧
    list_volumes (5 + 1) [] = some (.pyList []) ∧
    to_volumes 5 (.pyList [.pyDict [("VolumeId", .str "vol-123")]]) = none ∧
    list_volumes 5 [.pyDict [("VolumeId", .str "vol-123")]] = none :=
  to_volumes_diverges_on_nonempty "VolumeId" (by decide) (.str "vol-123") [] [] 5

end Outscale
